import Mathlib

/-!
Verification of the local data-handling logic of `src/train/train_DPO.py`
(ReflectEvo DPO training driver).

The script's own logic is: building the instruction prompt from a record
(`build_user_prompt`), reshaping each JSONL record into the
prompt/chosen/rejected format (the loop in `main`, lines 104-117), the
train/test split call (line 120, delegated to sklearn), the required
`--data_path` CLI argument (lines 62-64, delegated to argparse), and the
checkpoint-resume precedence (lines 267-271).

External library behaviour (pandas row access, sklearn `train_test_split`,
argparse) that the script calls but does not implement is modelled
explicitly; every such definition carries a doc comment saying so.
-/

/-- A raw JSONL record, as iterated by `df.iterrows()`: a finite map from
field names to string values, represented as an association list.  A lookup
that fails models the `KeyError` pandas raises for a missing column. -/
def RawRow : Type := List (String × String)

/-- Modelled from the spec: pandas row subscript access `row[key]` (external
library).  Returns the value of the first pair whose name matches `key`;
`none` models the `KeyError` raised when the field is absent. -/
def getField (row : RawRow) (key : String) : Option String :=
  (row.find? (fun p => p.1 == key)).map (fun p => p.2)

/-- The fixed instruction template of `build_user_prompt`
(src/train/train_DPO.py lines 52-58), interpolated with the record's
`question` and `first_trial_reasoning`. -/
def build_user_prompt_text (question first_trial_reasoning : String) : String :=
  "You are an advanced reasoning agent that can improve based on self-reflection. " ++
  "You will be given a previous reasoning trial in which you were given a question to answer. " ++
  "You were unsuccessful in answering the question. In a few sentences, Diagnose a possible reason for failure and devise a new, concise, high-level plan that aims to mitigate the same failure. Use complete sentences.\n\n" ++
  "Question: " ++ question ++ "\n" ++
  "Previous trial and your incorrect solution: " ++ first_trial_reasoning

/-- `build_user_prompt(row)` (src/train/train_DPO.py lines 51-58): reads
`row["question"]` and `row["first_trial_reasoning"]` and interpolates the
fixed template.  `none` models the `KeyError` abort when a field is
missing. -/
def build_user_prompt (row : RawRow) : Option String :=
  match getField row "question" with
  | none => none
  | some q =>
    match getField row "first_trial_reasoning" with
    | none => none
    | some ft => some (build_user_prompt_text q ft)

/-- One conversational turn: a `content`/`role` dictionary as built in the
formatting loop (src/train/train_DPO.py lines 110-115). -/
structure Message where
  content : String
  role : String
deriving DecidableEq, Repr

/-- One formatted preference record appended to `formatted_data`
(src/train/train_DPO.py lines 107-117). -/
structure FormattedRecord where
  prompt : String
  chosen : List Message
  rejected : List Message
deriving DecidableEq, Repr

/-- The body of the formatting loop (src/train/train_DPO.py lines 105-117):
build the user prompt, then attach it as the `prompt` field and as the user
turn of both `chosen` and `rejected`, with `reflection_chosen` and
`reflection_rejected` as the respective assistant turns.  `none` models the
`KeyError` abort on any missing field, in the access order of the source
(question, first_trial_reasoning, reflection_chosen, reflection_rejected). -/
def formatRecord (row : RawRow) : Option FormattedRecord :=
  match build_user_prompt row with
  | none => none
  | some user_input =>
    match getField row "reflection_chosen" with
    | none => none
    | some rc =>
      match getField row "reflection_rejected" with
      | none => none
      | some rr =>
        some { prompt := user_input,
               chosen := [{ content := user_input, role := "user" },
                          { content := rc, role := "assistant" }],
               rejected := [{ content := user_input, role := "user" },
                            { content := rr, role := "assistant" }] }

/-- The whole formatting pass over `df.iterrows()` (src/train/train_DPO.py
lines 104-117): records are processed in order and appended to
`formatted_data`; the first missing field aborts the whole run (`none`). -/
def formatAll : List RawRow → Option (List FormattedRecord)
  | [] => some []
  | row :: rest =>
    match formatRecord row with
    | none => none
    | some fr =>
      match formatAll rest with
      | none => none
      | some frs => some (fr :: frs)

example :
    formatRecord [("question", "q1"), ("first_trial_reasoning", "t1"),
                  ("reflection_chosen", "good"), ("reflection_rejected", "bad")] =
      some { prompt := build_user_prompt_text "q1" "t1",
             chosen := [{ content := build_user_prompt_text "q1" "t1", role := "user" },
                        { content := "good", role := "assistant" }],
             rejected := [{ content := build_user_prompt_text "q1" "t1", role := "user" },
                          { content := "bad", role := "assistant" }] } := rfl

example :
    formatRecord [("question", "q1"), ("reflection_chosen", "good"),
                  ("reflection_rejected", "bad")] = none := rfl

example : formatAll [[("question", "q1")]] = none := rfl

/-- Modelled from the spec: the pseudo-random number generator behind
sklearn's `train_test_split` (external library, not part of this
repository); a 64-bit linear congruential generator stands in for numpy's
`RandomState`. -/
def lcgNext (s : Nat) : Nat :=
  (6364136223846793005 * s + 1442695040888963407) % (2 ^ 64)

/-- Modelled from the spec: one pass of a deterministic Fisher-Yates-style
shuffle, driven by `lcgNext` and fuelled by the list length. -/
def shuffleGo {α : Type} : Nat → Nat → List α → List α
  | 0, _, l => l
  | Nat.succ fuel, s, l =>
    if h : 0 < l.length then
      l.get ⟨s % l.length, Nat.mod_lt s h⟩ ::
        shuffleGo fuel (lcgNext s) (l.eraseIdx (s % l.length))
    else []

/-- Modelled from the spec: the deterministic shuffle of the input rows that
sklearn's `train_test_split` performs, seeded with `random_state`. -/
def shuffle {α : Type} (random_state : Nat) (l : List α) : List α :=
  shuffleGo l.length random_state l

/-- Modelled from the spec: sklearn `train_test_split(df, test_size,
random_state)` (external library, not part of this repository).  The test
partition receives `ceil(test_size * n)` rows of a seed-determined shuffle
and the train partition the rest, as sklearn documents; `test_size` is
passed as the exact rational `test_size_num / test_size_den`.  Returns
`(train, test)` in the order of the Python call site. -/
def train_test_split {α : Type} (l : List α)
    (test_size_num test_size_den random_state : Nat) : List α × List α :=
  let n_test := (l.length * test_size_num + (test_size_den - 1)) / test_size_den
  let shuffled := shuffle random_state l
  (shuffled.drop n_test, shuffled.take n_test)

/-- The call `train_test_split(df_formatted, test_size=0.1, random_state=42)`
(src/train/train_DPO.py line 120): test size is the exact rational 1/10 and
the random state is the hard-coded 42. -/
def splitFormatted (l : List FormattedRecord) : List FormattedRecord × List FormattedRecord :=
  train_test_split l 1 10 42

/-- Modelled from the spec: the argparse layer (external library) for the
required `--data_path` argument (src/train/train_DPO.py lines 62-64).
Scans the command line for the flag and returns the path it carries, in
either the `--data_path PATH` or the `--data_path=PATH` form; `none` models
the parse error argparse raises when the required flag is absent or has no
value. -/
def parseDataPath : List String → Option String
  | [] => none
  | a :: rest =>
    if a = "--data_path" then rest.head?
    else if a.data.take 12 = "--data_path=".data then some (String.mk (a.data.drop 12))
    else parseDataPath rest

/-- The data-loading pipeline of `main` (src/train/train_DPO.py lines 62-64
and 100-120): parse `--data_path`, read the JSONL file at that path
(the file system is passed in as a map from paths to parsed row lists),
format every record, and split.  Any failure aborts the run (`none`). -/
def loadAndFormat (argv : List String) (fs : String → Option (List RawRow)) :
    Option (List FormattedRecord × List FormattedRecord) :=
  match parseDataPath argv with
  | none => none
  | some path =>
    match fs path with
    | none => none
    | some rows =>
      match formatAll rows with
      | none => none
      | some recs => some (splitFormatted recs)

/-- The checkpoint-resume selection (src/train/train_DPO.py lines 267-271):
`checkpoint = None`; if `resume_from_checkpoint` is configured take it,
else if a last checkpoint was detected take that. -/
def selectCheckpoint (resume_from_checkpoint last_checkpoint : Option String) :
    Option String :=
  if resume_from_checkpoint.isSome then resume_from_checkpoint
  else if last_checkpoint.isSome then last_checkpoint
  else none

example : shuffle 42 [10, 20, 30, 40, 50] ≠ [10, 20, 30, 40, 50] := by decide
example : (train_test_split [10, 20, 30, 40, 50] 1 10 42).2.length = 1 := by decide
example : parseDataPath ["--data_path", "d.jsonl", "--model", "m"] = some "d.jsonl" := rfl
example : parseDataPath ["--model", "m"] = none := rfl
example : parseDataPath ["--data_path=d.jsonl"] = some "d.jsonl" := rfl

/-! ## Helper lemmas -/

theorem perm_cons_eraseIdx {α : Type} (l : List α) (i : Nat) (h : i < l.length) :
    l.Perm (l[i] :: l.eraseIdx i) := by
  conv_lhs => rw [← List.take_append_drop i l, ← List.getElem_cons_drop l i h]
  rw [List.eraseIdx_eq_take_drop_succ]
  exact List.perm_middle

theorem shuffleGo_perm {α : Type} (fuel : Nat) :
    ∀ (s : Nat) (l : List α), (shuffleGo fuel s l).Perm l := by
  induction fuel with
  | zero => intro s l; exact List.Perm.refl l
  | succ fuel ih =>
    intro s l
    rw [shuffleGo]
    by_cases h : 0 < l.length
    · rw [dif_pos h]
      have h2 : s % l.length < l.length := Nat.mod_lt s h
      have hrec := ih (lcgNext s) (l.eraseIdx (s % l.length))
      have hstep := (perm_cons_eraseIdx l (s % l.length) h2).symm
      simpa [List.get_eq_getElem] using (hrec.cons (l.get ⟨s % l.length, h2⟩)).trans hstep
    · rw [dif_neg h]
      have : l = [] := List.length_eq_zero.mp (Nat.eq_zero_of_not_pos h)
      simp [this]

theorem shuffle_perm {α : Type} (s : Nat) (l : List α) : (shuffle s l).Perm l :=
  shuffleGo_perm l.length s l

theorem shuffle_length {α : Type} (s : Nat) (l : List α) : (shuffle s l).length = l.length :=
  (shuffle_perm s l).length_eq

/-! ## Claims about the train/test split -/

/-- C3: for every list of formatted records, the 90/10 split partitions the
input: each row occurrence lands in exactly one of the train and test
partitions, so for every record value the train and test multiplicities add
up to the input multiplicity (union equals the input, intersection empty at
the level of row occurrences). -/
theorem split_partitions_input (l : List FormattedRecord) (x : FormattedRecord) :
    ((splitFormatted l).1.count x) + ((splitFormatted l).2.count x) = l.count x := by
  have hcount : (shuffle 42 l).count x = l.count x := (shuffle_perm 42 l).count_eq x
  simp only [splitFormatted, train_test_split]
  rw [Nat.add_comm, ← List.count_append, List.take_append_drop, hcount]

/-- C4: the train/test split is deterministic: two runs on the same dataset
with the hard-coded seed 42 produce identical train and test partitions. -/
theorem split_deterministic (l1 l2 : List FormattedRecord) (h : l1 = l2) :
    splitFormatted l1 = splitFormatted l2 := by rw [h]

theorem split_deterministic_witness :
    splitFormatted [{ prompt := "p", chosen := [], rejected := [] }] =
      splitFormatted [{ prompt := "p", chosen := [], rejected := [] }] :=
  split_deterministic _ _ rfl

/-- C5: with test_size = 0.1, the test partition receives ceil(n/10) rows
and the train partition the remaining n - ceil(n/10) rows. -/
theorem split_sizes (l : List FormattedRecord) :
    (splitFormatted l).2.length = (l.length + 9) / 10 ∧
    (splitFormatted l).1.length = l.length - (l.length + 9) / 10 := by
  have hlen := shuffle_length 42 l
  simp only [splitFormatted, train_test_split]
  constructor
  · simp only [List.length_take, hlen]; omega
  · simp only [List.length_drop, hlen]; omega

/-! ## Claims about the preference-pair formatter -/

theorem formatRecord_eq (row : RawRow) (q ft rc rr : String)
    (hq : getField row "question" = some q)
    (hft : getField row "first_trial_reasoning" = some ft)
    (hrc : getField row "reflection_chosen" = some rc)
    (hrr : getField row "reflection_rejected" = some rr) :
    formatRecord row = some
      { prompt := build_user_prompt_text q ft,
        chosen := [{ content := build_user_prompt_text q ft, role := "user" },
                   { content := rc, role := "assistant" }],
        rejected := [{ content := build_user_prompt_text q ft, role := "user" },
                     { content := rr, role := "assistant" }] } := by
  simp only [formatRecord, build_user_prompt, hq, hft, hrc, hrr]

/-- A fully-populated sample record used to instantiate the formatter
claims on concrete data. -/
def sampleRow : RawRow :=
  [("question", "q1"), ("first_trial_reasoning", "t1"),
   ("reflection_chosen", "good"), ("reflection_rejected", "bad"),
   ("id", "7")]

/-- C1: for every record with the four fields populated, the formatter
yields a record whose prompt is the fixed instruction template interpolated
with the record's question and first-trial reasoning, whose second chosen
turn carries reflection_chosen and whose second rejected turn carries
reflection_rejected. -/
theorem formatter_prompt_and_contents (row : RawRow) (q ft rc rr : String)
    (hq : getField row "question" = some q)
    (hft : getField row "first_trial_reasoning" = some ft)
    (hrc : getField row "reflection_chosen" = some rc)
    (hrr : getField row "reflection_rejected" = some rr) :
    ∃ fr, formatRecord row = some fr ∧
      fr.prompt = build_user_prompt_text q ft ∧
      (fr.chosen[1]?).map Message.content = some rc ∧
      (fr.rejected[1]?).map Message.content = some rr :=
  ⟨_, formatRecord_eq row q ft rc rr hq hft hrc hrr, rfl, rfl, rfl⟩

theorem formatter_prompt_and_contents_witness :
    ∃ fr, formatRecord sampleRow = some fr ∧
      fr.prompt = build_user_prompt_text "q1" "t1" ∧
      (fr.chosen[1]?).map Message.content = some "good" ∧
      (fr.rejected[1]?).map Message.content = some "bad" :=
  formatter_prompt_and_contents sampleRow "q1" "t1" "good" "bad" rfl rfl rfl rfl

/-- C2: for every record with the four fields populated, the output has the
shape: prompt together with a two-element chosen list of a user turn followed
by an assistant turn carrying reflection_chosen, and a two-element rejected
list of a user turn followed by an assistant turn carrying
reflection_rejected. -/
theorem formatter_output_shape (row : RawRow) (q ft rc rr : String)
    (hq : getField row "question" = some q)
    (hft : getField row "first_trial_reasoning" = some ft)
    (hrc : getField row "reflection_chosen" = some rc)
    (hrr : getField row "reflection_rejected" = some rr) :
    ∃ (fr : FormattedRecord) (u1 u2 : Message),
      formatRecord row = some fr ∧
      fr.chosen = [u1, { content := rc, role := "assistant" }] ∧
      fr.rejected = [u2, { content := rr, role := "assistant" }] ∧
      u1.role = "user" ∧ u2.role = "user" :=
  ⟨_, _, _, formatRecord_eq row q ft rc rr hq hft hrc hrr, rfl, rfl, rfl, rfl⟩

theorem formatter_output_shape_witness :
    ∃ (fr : FormattedRecord) (u1 u2 : Message),
      formatRecord sampleRow = some fr ∧
      fr.chosen = [u1, { content := "good", role := "assistant" }] ∧
      fr.rejected = [u2, { content := "bad", role := "assistant" }] ∧
      u1.role = "user" ∧ u2.role = "user" :=
  formatter_output_shape sampleRow "q1" "t1" "good" "bad" rfl rfl rfl rfl

/-- C8: in every formatted record, the user turns of chosen and rejected are
identical and both carry the record's prompt as content. -/
theorem formatter_user_turns_identical (row : RawRow) (q ft rc rr : String)
    (hq : getField row "question" = some q)
    (hft : getField row "first_trial_reasoning" = some ft)
    (hrc : getField row "reflection_chosen" = some rc)
    (hrr : getField row "reflection_rejected" = some rr) :
    ∃ fr, formatRecord row = some fr ∧
      fr.chosen[0]? = fr.rejected[0]? ∧
      (fr.chosen[0]?).map Message.content = some fr.prompt :=
  ⟨_, formatRecord_eq row q ft rc rr hq hft hrc hrr, rfl, rfl⟩

theorem formatter_user_turns_identical_witness :
    ∃ fr, formatRecord sampleRow = some fr ∧
      fr.chosen[0]? = fr.rejected[0]? ∧
      (fr.chosen[0]?).map Message.content = some fr.prompt :=
  formatter_user_turns_identical sampleRow "q1" "t1" "good" "bad" rfl rfl rfl rfl

theorem formatAll_none_of_mem {rows : List RawRow} {row : RawRow}
    (hmem : row ∈ rows) (hnone : formatRecord row = none) :
    formatAll rows = none := by
  induction rows with
  | nil => cases hmem
  | cons a rest ih =>
    rcases List.mem_cons.mp hmem with heq | htail
    · subst heq; simp [formatAll, hnone]
    · cases hfa : formatRecord a <;> simp [formatAll, hfa, ih htail]

/-- C6: a record missing any of the four required fields makes the formatter
fail on that record, and its presence anywhere in the input makes the whole
formatting pass abort, rather than silently producing a malformed record. -/
theorem missing_field_aborts (rows : List RawRow) (row : RawRow)
    (hmem : row ∈ rows)
    (hmiss : getField row "question" = none ∨
             getField row "first_trial_reasoning" = none ∨
             getField row "reflection_chosen" = none ∨
             getField row "reflection_rejected" = none) :
    formatRecord row = none ∧ formatAll rows = none := by
  have hrec : formatRecord row = none := by
    rcases hmiss with h | h | h | h
    · simp [formatRecord, build_user_prompt, h]
    · cases hq : getField row "question" <;>
        simp [formatRecord, build_user_prompt, hq, h]
    · cases hbp : build_user_prompt row <;> simp [formatRecord, hbp, h]
    · cases hbp : build_user_prompt row <;>
        cases hrc : getField row "reflection_chosen" <;>
        simp [formatRecord, hbp, hrc, h]
  exact ⟨hrec, formatAll_none_of_mem hmem hrec⟩

theorem missing_field_aborts_witness :
    formatRecord [("first_trial_reasoning", "t2"), ("reflection_chosen", "g2"),
                  ("reflection_rejected", "b2")] = none ∧
    formatAll [sampleRow,
               [("first_trial_reasoning", "t2"), ("reflection_chosen", "g2"),
                ("reflection_rejected", "b2")]] = none :=
  missing_field_aborts _ _
    (List.mem_cons_of_mem _ (List.mem_cons_self _ _)) (Or.inl rfl)

theorem formatAll_length {rows : List RawRow} {out : List FormattedRecord}
    (h : formatAll rows = some out) : out.length = rows.length := by
  induction rows generalizing out with
  | nil => simp only [formatAll, Option.some.injEq] at h; subst h; rfl
  | cons a rest ih =>
    rw [formatAll] at h
    cases hfa : formatRecord a <;> rw [hfa] at h
    · exact absurd h (by simp)
    · cases hrest : formatAll rest <;> rw [hrest] at h
      · exact absurd h (by simp)
      · cases h
        simp [ih hrest]

theorem formatAll_getElem {rows : List RawRow} {out : List FormattedRecord}
    (h : formatAll rows = some out) :
    ∀ i : Nat, out[i]? = (rows[i]?).bind formatRecord := by
  induction rows generalizing out with
  | nil =>
    simp only [formatAll, Option.some.injEq] at h
    subst h
    intro i
    simp
  | cons a rest ih =>
    rw [formatAll] at h
    cases hfa : formatRecord a <;> rw [hfa] at h
    · exact absurd h (by simp)
    · cases hrest : formatAll rest <;> rw [hrest] at h
      · exact absurd h (by simp)
      · cases h
        intro i
        cases i with
        | zero => simp [hfa]
        | succ i => simp only [List.getElem?_cons_succ]; exact ih hrest i

/-- C9: the formatter is an order- and count-preserving map: a successful
pass yields one output per input in the same order, the i-th output being
the formatted i-th input, and the output of a record depends only on its
four fields question, first_trial_reasoning, reflection_chosen and
reflection_rejected. -/
theorem formatter_pointwise_map (rows : List RawRow) (out : List FormattedRecord)
    (h : formatAll rows = some out) :
    out.length = rows.length ∧
    (∀ i : Nat, out[i]? = (rows[i]?).bind formatRecord) ∧
    (∀ r1 r2 : RawRow,
      getField r1 "question" = getField r2 "question" →
      getField r1 "first_trial_reasoning" = getField r2 "first_trial_reasoning" →
      getField r1 "reflection_chosen" = getField r2 "reflection_chosen" →
      getField r1 "reflection_rejected" = getField r2 "reflection_rejected" →
      formatRecord r1 = formatRecord r2) := by
  refine ⟨formatAll_length h, formatAll_getElem h, ?_⟩
  intro r1 r2 h1 h2 h3 h4
  simp only [formatRecord, build_user_prompt, h1, h2, h3, h4]

theorem formatter_pointwise_map_witness :
    ([{ prompt := build_user_prompt_text "q1" "t1",
        chosen := [{ content := build_user_prompt_text "q1" "t1", role := "user" },
                   { content := "good", role := "assistant" }],
        rejected := [{ content := build_user_prompt_text "q1" "t1", role := "user" },
                     { content := "bad", role := "assistant" }] }] :
          List FormattedRecord).length = [sampleRow].length ∧
    ([{ prompt := build_user_prompt_text "q1" "t1",
        chosen := [{ content := build_user_prompt_text "q1" "t1", role := "user" },
                   { content := "good", role := "assistant" }],
        rejected := [{ content := build_user_prompt_text "q1" "t1", role := "user" },
                     { content := "bad", role := "assistant" }] }] :
          List FormattedRecord)[0]? = ([sampleRow][0]?).bind formatRecord ∧
    formatRecord (("extra", "e") :: sampleRow) = formatRecord sampleRow := by
  have h := formatter_pointwise_map [sampleRow]
    [{ prompt := build_user_prompt_text "q1" "t1",
       chosen := [{ content := build_user_prompt_text "q1" "t1", role := "user" },
                  { content := "good", role := "assistant" }],
       rejected := [{ content := build_user_prompt_text "q1" "t1", role := "user" },
                    { content := "bad", role := "assistant" }] }] rfl
  exact ⟨h.1, h.2.1 0, h.2.2 (("extra", "e") :: sampleRow) sampleRow rfl rfl rfl rfl⟩

/-! ## Claims about the CLI and checkpoint selection -/

theorem parseDataPath_none (argv : List String)
    (h : ∀ a ∈ argv, a ≠ "--data_path" ∧ a.data.take 12 ≠ "--data_path=".data) :
    parseDataPath argv = none := by
  induction argv with
  | nil => rfl
  | cons a rest ih =>
    obtain ⟨h1, h2⟩ := h a (List.mem_cons_self a rest)
    rw [parseDataPath, if_neg h1, if_neg h2]
    exact ih (fun b hb => h b (List.mem_cons_of_mem a hb))

/-- C7: the data-file path argument is required: a command line carrying no
--data_path flag fails to parse and the run never reaches data loading,
while a command line that parses to a path reads the JSONL input exactly at
that path. -/
theorem cli_data_path_required (argv : List String)
    (fs : String → Option (List RawRow)) :
    ((∀ a ∈ argv, a ≠ "--data_path" ∧ a.data.take 12 ≠ "--data_path=".data) →
      parseDataPath argv = none ∧ loadAndFormat argv fs = none) ∧
    (∀ p, parseDataPath argv = some p →
      loadAndFormat argv fs =
        match fs p with
        | none => none
        | some rows =>
          match formatAll rows with
          | none => none
          | some recs => some (splitFormatted recs)) := by
  constructor
  · intro h
    have hp := parseDataPath_none argv h
    exact ⟨hp, by rw [loadAndFormat, hp]⟩
  · intro p hp
    rw [loadAndFormat, hp]

theorem cli_data_path_required_witness :
    (parseDataPath ["--model", "m"] = none ∧
      loadAndFormat ["--model", "m"] (fun _ => some [sampleRow]) = none) ∧
    loadAndFormat ["--data_path", "d.jsonl"] (fun _ => some []) =
      some (splitFormatted []) := by
  constructor
  · exact (cli_data_path_required ["--model", "m"] (fun _ => some [sampleRow])).1
      (by decide)
  · exact ((cli_data_path_required ["--data_path", "d.jsonl"]
      (fun _ => some [])).2 "d.jsonl" rfl).trans rfl

/-- C10: checkpoint-resume selection obeys the fixed precedence: an
explicitly configured resume_from_checkpoint wins, otherwise a detected last
checkpoint is used, otherwise training starts from no checkpoint. -/
theorem checkpoint_precedence (resume last : Option String) :
    (∀ c, resume = some c → selectCheckpoint resume last = some c) ∧
    (resume = none → ∀ c, last = some c → selectCheckpoint resume last = some c) ∧
    (resume = none → last = none → selectCheckpoint resume last = none) := by
  refine ⟨?_, ?_, ?_⟩
  · intro c hc; subst hc; simp [selectCheckpoint]
  · intro hr c hc; subst hr; subst hc; simp [selectCheckpoint]
  · intro hr hl; subst hr; subst hl; simp [selectCheckpoint]

theorem checkpoint_precedence_witness :
    selectCheckpoint (some "ckpt-cfg") (some "ckpt-last") = some "ckpt-cfg" ∧
    selectCheckpoint none (some "ckpt-last") = some "ckpt-last" ∧
    selectCheckpoint none none = none :=
  ⟨(checkpoint_precedence (some "ckpt-cfg") (some "ckpt-last")).1 "ckpt-cfg" rfl,
   (checkpoint_precedence none (some "ckpt-last")).2.1 rfl "ckpt-last" rfl,
   (checkpoint_precedence none none).2.2 rfl rfl⟩
